import Mathlib

/-!
Verification of the PDF-to-slide conversion pipeline of the
`presentation-gesture-pdf-mediapipe-django` repository.

The development shallowly embeds the relevant Python code:

* `apps/presentations/services.py` — `PDFProcessor._optimize_image`,
  `PDFProcessor._create_slides_from_images`, `PDFProcessor.convert_pdf_to_images`;
* `apps/presentations/tasks.py` — the Celery task `convert_pdf_to_slides`;
* `apps/presentations/models.py` — `Presentation`, `Slide`,
  `Presentation.delete_files` and the `delete` override;
* `apps/presentations/views.py` — `presentation_slide`.

External effects are made explicit: the database is a record of lists, blob
storage is a list of blob identifiers (Django's storage backend never
overwrites — on a name collision it allocates a fresh name, which we model by
a monotone counter `nextBlob`), the rasterization backend
(`pdf2image.convert_from_path`) is passed in as an `Except` value, and
per-page persistence failures are an oracle `persistOk : Nat → Bool`.
Image pixel content is abstracted to an opaque `data : Nat` payload; the
arithmetic of `_optimize_image` is embedded over `ℚ` (Python's float
division and `int` truncation on positive values become exact rational
division and `Int.floor`).
-/

namespace SlideMotion

/-! ### Image optimization (`PDFProcessor._optimize_image`, services.py 116-144) -/

/-- Class attributes of `PDFProcessor` (services.py 28-32). -/
def MAX_WIDTH : ℕ := 1920

/-- Class attribute `MAX_HEIGHT` of `PDFProcessor`. -/
def MAX_HEIGHT : ℕ := 1080

/-- A PIL image: dimensions plus an opaque pixel payload.  `image.size` in the
source is the pair `(width, height)`; everything the optimizer does not touch
is folded into `data`. -/
structure Image where
  width : ℕ
  height : ℕ
  data : ℕ
deriving DecidableEq, Repr

/-- Embeds `image.resize((new_width, new_height), Image.Resampling.LANCZOS)`:
produces an image with the requested dimensions and the same underlying
picture. -/
def Image.resize (image : Image) (new_width new_height : ℕ) : Image :=
  { width := new_width, height := new_height, data := image.data }

/-- Embeds `PDFProcessor._optimize_image` (services.py 116-144): if either dimension
exceeds its maximum, compute `ratio = min(MAX_WIDTH/width, MAX_HEIGHT/height)`
and resize to `(int(width*ratio), int(height*ratio))`; otherwise return the
image unchanged.  Division is exact (`ℚ`) and `int(...)` on the non-negative
products is `Int.floor`. -/
def optimize_image (image : Image) : Image :=
  let width := image.width
  let height := image.height
  if width > MAX_WIDTH ∨ height > MAX_HEIGHT then
    let width_ratio : ℚ := (MAX_WIDTH : ℚ) / width
    let height_ratio : ℚ := (MAX_HEIGHT : ℚ) / height
    let ratio : ℚ := min width_ratio height_ratio
    let new_width : ℕ := (⌊(width : ℚ) * ratio⌋).toNat
    let new_height : ℕ := (⌊(height : ℚ) * ratio⌋).toNat
    image.resize new_width new_height
  else
    image

/-- The uniform scale factor `min(MAX_WIDTH/width, MAX_HEIGHT/height)` used by
the resize branch. -/
def scaleRatio (image : Image) : ℚ :=
  min ((MAX_WIDTH : ℚ) / image.width) ((MAX_HEIGHT : ℚ) / image.height)

theorem optimize_image_of_within (image : Image)
    (hw : image.width ≤ MAX_WIDTH) (hh : image.height ≤ MAX_HEIGHT) :
    optimize_image image = image := by
  unfold optimize_image
  rw [if_neg]
  push_neg
  exact ⟨hw, hh⟩

theorem optimize_image_of_over (image : Image)
    (h : image.width > MAX_WIDTH ∨ image.height > MAX_HEIGHT) :
    optimize_image image =
      image.resize (⌊(image.width : ℚ) * scaleRatio image⌋).toNat
        (⌊(image.height : ℚ) * scaleRatio image⌋).toNat := by
  unfold optimize_image scaleRatio
  rw [if_pos h]

/-- The scaled width is at most `MAX_WIDTH` (uses `width ≠ 0`). -/
theorem scaled_width_le (image : Image) (hw : 0 < image.width) :
    (⌊(image.width : ℚ) * scaleRatio image⌋).toNat ≤ MAX_WIDTH := by
  have hw0 : ((image.width : ℚ)) ≠ 0 := by
    exact_mod_cast Nat.pos_iff_ne_zero.mp hw
  have hle : (image.width : ℚ) * scaleRatio image ≤ (MAX_WIDTH : ℚ) := by
    have h1 : scaleRatio image ≤ (MAX_WIDTH : ℚ) / image.width := min_le_left _ _
    have h2 : (image.width : ℚ) * ((MAX_WIDTH : ℚ) / image.width) = MAX_WIDTH := by
      field_simp
    calc (image.width : ℚ) * scaleRatio image
        ≤ (image.width : ℚ) * ((MAX_WIDTH : ℚ) / image.width) := by
          apply mul_le_mul_of_nonneg_left h1
          positivity
      _ = MAX_WIDTH := h2
  have hfloor : ⌊(image.width : ℚ) * scaleRatio image⌋ ≤ (MAX_WIDTH : ℤ) := by
    simpa using Int.floor_le_floor hle
  exact Int.toNat_le.mpr hfloor

/-- The scaled height is at most `MAX_HEIGHT` (uses `height ≠ 0`). -/
theorem scaled_height_le (image : Image) (hh : 0 < image.height) :
    (⌊(image.height : ℚ) * scaleRatio image⌋).toNat ≤ MAX_HEIGHT := by
  have hh0 : ((image.height : ℚ)) ≠ 0 := by
    exact_mod_cast Nat.pos_iff_ne_zero.mp hh
  have hle : (image.height : ℚ) * scaleRatio image ≤ (MAX_HEIGHT : ℚ) := by
    have h1 : scaleRatio image ≤ (MAX_HEIGHT : ℚ) / image.height := min_le_right _ _
    have h2 : (image.height : ℚ) * ((MAX_HEIGHT : ℚ) / image.height) = MAX_HEIGHT := by
      field_simp
    calc (image.height : ℚ) * scaleRatio image
        ≤ (image.height : ℚ) * ((MAX_HEIGHT : ℚ) / image.height) := by
          apply mul_le_mul_of_nonneg_left h1
          positivity
      _ = MAX_HEIGHT := h2
  have hfloor : ⌊(image.height : ℚ) * scaleRatio image⌋ ≤ (MAX_HEIGHT : ℤ) := by
    simpa using Int.floor_le_floor hle
  exact Int.toNat_le.mpr hfloor

/-- C7: for every image whose width and height are both within the configured
maximum bounds (1920×1080), `_optimize_image` returns the image unchanged —
output equals input, with no resize and no re-encoding. -/
theorem optimize_noop_within_bounds (image : Image)
    (hw : image.width ≤ MAX_WIDTH) (hh : image.height ≤ MAX_HEIGHT) :
    optimize_image image = image :=
  optimize_image_of_within image hw hh

/-- Witness for C7: an 800×600 image is returned unchanged. -/
theorem optimize_noop_within_bounds_witness :
    optimize_image ⟨800, 600, 42⟩ = ⟨800, 600, 42⟩ :=
  optimize_noop_within_bounds ⟨800, 600, 42⟩ (by decide) (by decide)

/-- C8: for every image with width > 1920 or height > 1080, `_optimize_image`
resizes by the single uniform scale factor `min(1920/width, 1080/height)`
(both output dimensions are the floor of the corresponding input dimension
times that one factor), and both outputs are at most their respective
maximum. -/
theorem optimize_resizes_uniformly (image : Image)
    (hover : image.width > MAX_WIDTH ∨ image.height > MAX_HEIGHT)
    (hw : 0 < image.width) (hh : 0 < image.height) :
    optimize_image image =
      image.resize (⌊(image.width : ℚ) * scaleRatio image⌋).toNat
        (⌊(image.height : ℚ) * scaleRatio image⌋).toNat ∧
    (optimize_image image).width ≤ MAX_WIDTH ∧
    (optimize_image image).height ≤ MAX_HEIGHT := by
  refine ⟨optimize_image_of_over image hover, ?_, ?_⟩
  · rw [optimize_image_of_over image hover]
    exact scaled_width_le image hw
  · rw [optimize_image_of_over image hover]
    exact scaled_height_le image hh

/-- Witness for C8: a 2400×1800 image is scaled by
`min(1920/2400, 1080/1800) = 3/5` to 1440×1080. -/
theorem optimize_resizes_uniformly_witness :
    ((2400 : ℕ) > MAX_WIDTH ∨ (1800 : ℕ) > MAX_HEIGHT) ∧
    optimize_image ⟨2400, 1800, 7⟩ = ⟨1440, 1080, 7⟩ := by
  refine ⟨by decide, ?_⟩
  have h := (optimize_resizes_uniformly ⟨2400, 1800, 7⟩ (by left; decide)
    (by decide) (by decide)).1
  rw [h]
  have hr : scaleRatio ⟨2400, 1800, 7⟩ = 3 / 5 := by
    unfold scaleRatio MAX_WIDTH MAX_HEIGHT
    rw [min_eq_right (by norm_num)]
    norm_num
  rw [Image.resize, hr]
  norm_num
  exact ⟨by decide, by decide⟩

/-- C10: `_optimize_image` is idempotent — applying it twice gives the same
result as applying it once, because its output either is the unchanged input
or has both dimensions within bounds, landing in the no-op branch on the
second application. -/
theorem optimize_image_idempotent (image : Image)
    (hw : 0 < image.width) (hh : 0 < image.height) :
    optimize_image (optimize_image image) = optimize_image image := by
  by_cases hover : image.width > MAX_WIDTH ∨ image.height > MAX_HEIGHT
  · have hres := optimize_image_of_over image hover
    apply optimize_image_of_within
    · rw [hres]
      exact scaled_width_le image hw
    · rw [hres]
      exact scaled_height_le image hh
  · push_neg at hover
    rw [optimize_image_of_within image hover.1 hover.2]
    exact optimize_image_of_within image hover.1 hover.2

/-- Witness for C10: idempotence at a concrete oversized 2400×1800 image. -/
theorem optimize_image_idempotent_witness :
    optimize_image (optimize_image ⟨2400, 1800, 7⟩) = optimize_image ⟨2400, 1800, 7⟩ :=
  optimize_image_idempotent ⟨2400, 1800, 7⟩ (by decide) (by decide)

/-! ### Data model (`models.py`)

The `processing_status` field is used by `tasks.py` (lines 154, 175, 185) and
by the test fixture `conftest.py` (line 98), but its declaration is missing
from `models.py` in the source snapshot. -/

/-- Modelled from the spec: `processing_status: enum {pending, in_progress,
completed, failed} — tracks the most recent conversion attempt` (spec §3).
The field's declaration is missing from `models.py` although `tasks.py` and
`conftest.py` read and write it. -/
inductive PStatus
  | pending
  | in_progress
  | completed
  | failed
deriving DecidableEq, Repr

/-- The `Presentation` model (models.py 7-94).  Blobs are identified by natural
numbers; `pdf_file = none` models an unset `FileField`.  Timestamps and the
byte content of blobs are irrelevant to the claims and are omitted. -/
structure Presentation where
  id : ℕ
  title : String
  pdf_file : Option ℕ
  total_slides : ℕ
  is_converted : Bool
  processing_status : PStatus
deriving DecidableEq, Repr

/-- The `Slide` model (models.py 97-135): owner, 1-based `slide_number`, and the
stored image blob. -/
structure Slide where
  presentation_id : ℕ
  slide_number : ℕ
  image_file : ℕ
deriving DecidableEq, Repr

/-- Database plus blob storage.  `storage` is the set of blob names that
exist on disk; `nextBlob` is the fresh-name supply — Django's storage never
overwrites an existing file, it allocates a new unique name, so every save
draws a fresh identifier. -/
structure DB where
  presentations : List Presentation
  slides : List Slide
  storage : List ℕ
  nextBlob : ℕ
deriving DecidableEq, Repr

/-- Embeds `Presentation.objects.get(id=pid)` / `get_object_or_404`. -/
def DB.getPresentation (db : DB) (pid : ℕ) : Option Presentation :=
  db.presentations.find? (fun p => p.id == pid)

/-- Embeds `presentation.save()`: write the in-memory instance back over every row
with the same id. -/
def DB.savePresentation (db : DB) (p : Presentation) : DB :=
  { db with presentations := db.presentations.map (fun q => if q.id == p.id then p else q) }

/-- Embeds `presentation.slides.all()` / `Slide.objects.filter(presentation=...)`. -/
def DB.slidesOf (db : DB) (pid : ℕ) : List Slide :=
  db.slides.filter (fun s => s.presentation_id == pid)

/-- Embeds `presentation.slides.all().delete()` (services.py 161) and
`existing_slides.delete()` (tasks.py 93): a queryset bulk delete removes the
rows only — it does not touch the stored image blobs. -/
def DB.deleteSlideRecords (db : DB) (pid : ℕ) : DB :=
  { db with slides := db.slides.filter (fun s => s.presentation_id != pid) }

/-! ### Slide persistence loop
(services.py 163-188 and tasks.py 100-150 share this structure: enumerate the
page images from 1; on a per-page persistence failure, log and `continue`.) -/

/-- The per-page loop.  `persistOk page_num` says whether saving page
`page_num` (blob write + `Slide.objects.create`, one atomic unit) succeeds.
On success a fresh blob is stored and a `Slide` row is appended; on failure
the page is skipped.  Returns the final state and the list of created
slides, in order. -/
def create_slides (pid : ℕ) (persistOk : ℕ → Bool) :
    ℕ → List Image → DB → DB × List Slide
  | _, [], db => (db, [])
  | page_num, _ :: rest, db =>
    if persistOk page_num then
      let blob := db.nextBlob
      let slide : Slide := ⟨pid, page_num, blob⟩
      let db1 : DB := { db with
        slides := db.slides ++ [slide],
        storage := db.storage ++ [blob],
        nextBlob := blob + 1 }
      let r := create_slides pid persistOk (page_num + 1) rest db1
      (r.1, slide :: r.2)
    else
      create_slides pid persistOk (page_num + 1) rest db

/-! ### The conversion pipeline as a background task
(`convert_pdf_to_slides`, tasks.py 26-190).  The rasterization backend
(`pdf2image.convert_from_path`) is an input: `Except.error e` models it
raising, `Except.ok images` the produced page images. -/

/-- The return value of the task (tasks.py 160-166, minus the echo of the
title and a constant status string). -/
structure TaskResult where
  presentation_id : ℕ
  slides_created : ℕ
  total_pages : ℕ
deriving DecidableEq, Repr

/-- The body of the `try` block of `convert_pdf_to_slides`
(tasks.py 37-169): load the record, check the PDF reference and its presence
in storage, rasterize, reject an empty page list, bulk-delete prior slide
rows, run the per-page loop, then atomically set
`processing_status = completed`, `is_converted = True`,
`total_slides = len(slides_created)`. -/
def task_body (db : DB) (presentation_id : ℕ)
    (raster : Except String (List Image)) (persistOk : ℕ → Bool) :
    DB × Except String TaskResult :=
  match db.getPresentation presentation_id with
  | none => (db, Except.error "Presentacion no encontrada")
  | some presentation =>
    match presentation.pdf_file with
    | none => (db, Except.error "La presentacion no tiene archivo PDF asociado")
    | some pdfBlob =>
      if pdfBlob ∈ db.storage then
        match raster with
        | Except.error e => (db, Except.error ("Error al convertir PDF: " ++ e))
        | Except.ok images =>
          if images.isEmpty then
            (db, Except.error "No se pudieron extraer paginas del PDF")
          else
            let db1 := db.deleteSlideRecords presentation_id
            let r := create_slides presentation_id persistOk 1 images db1
            let db2 := r.1.savePresentation { presentation with
              processing_status := PStatus.completed,
              is_converted := true,
              total_slides := r.2.length }
            (db2, Except.ok ⟨presentation_id, r.2.length, images.length⟩)
      else
        (db, Except.error "Archivo PDF no encontrado")

/-- The `except` handlers of the task (tasks.py 171-190): re-fetch the
presentation, set `processing_status = failed` (saving only that field) and
swallow any error in doing so (in particular a missing record). -/
def mark_failed (db : DB) (pid : ℕ) : DB :=
  match db.getPresentation pid with
  | none => db
  | some p => db.savePresentation { p with processing_status := PStatus.failed }

/-- The Celery task `convert_pdf_to_slides` (tasks.py 26-190): run the body;
on any error, mark the presentation failed and re-raise a
`PDFConversionError`. -/
def convert_pdf_to_slides (db : DB) (presentation_id : ℕ)
    (raster : Except String (List Image)) (persistOk : ℕ → Bool) :
    DB × Except String TaskResult :=
  match task_body db presentation_id raster persistOk with
  | (db1, Except.ok r) => (db1, Except.ok r)
  | (db1, Except.error e) => (mark_failed db1 presentation_id, Except.error e)

/-! ### The synchronous pipeline (`PDFProcessor.convert_pdf_to_images`,
services.py 34-77).  It differs from the task: pages are optimized with
`_optimize_image`, there is no empty-page check, and on failure it raises
`PDFConversionError` without touching any status field. -/

/-- Embeds `PDFProcessor.convert_pdf_to_images` (services.py 34-77): check the PDF
reference and the file's existence, rasterize (`_convert_pdf_pages`, which
optimizes every page with `_optimize_image`), replace the slides
(`_create_slides_from_images`), then `presentation.save()` with
`total_slides = len(slides)` and `is_converted = True`. -/
def convert_pdf_to_images (db : DB) (presentation : Presentation)
    (raster : Except String (List Image)) (persistOk : ℕ → Bool) :
    DB × Except String (List Slide) :=
  match presentation.pdf_file with
  | none => (db, Except.error "La presentacion no tiene archivo PDF asociado")
  | some pdfBlob =>
    if pdfBlob ∈ db.storage then
      match raster with
      | Except.error e => (db, Except.error ("Error al procesar paginas PDF: " ++ e))
      | Except.ok pages =>
        let images := pages.map optimize_image
        let db1 := db.deleteSlideRecords presentation.id
        let r := create_slides presentation.id persistOk 1 images db1
        let db2 := r.1.savePresentation { presentation with
          total_slides := r.2.length, is_converted := true }
        (db2, Except.ok r.2)
    else
      (db, Except.error "Archivo PDF no encontrado")

/-! ### Deletion (`Presentation.delete_files` and the `delete` override,
models.py 70-94) -/

/-- Embeds `os.remove` guarded by `os.path.exists` plus the `except (OSError,
ValueError): pass` — removing a blob that is already gone is a no-op. -/
def removeBlob (storage : List ℕ) (blob : ℕ) : List ℕ :=
  storage.filter (fun b => b != blob)

/-- Embeds `Presentation.delete_files` (models.py 70-89): remove the PDF blob if
set, then each owned slide's image blob, each step tolerating an
already-missing file. -/
def delete_files (db : DB) (p : Presentation) : DB :=
  let st1 := match p.pdf_file with
    | none => db.storage
    | some b => removeBlob db.storage b
  let st2 := (db.slidesOf p.id).foldl (fun st s => removeBlob st s.image_file) st1
  { db with storage := st2 }

/-- Embeds `Presentation.delete` (models.py 91-94): `delete_files` then the ORM
delete, which cascades to the presentation's `Slide` rows
(`on_delete=models.CASCADE`). -/
def delete_presentation (db : DB) (p : Presentation) : DB :=
  let db1 := delete_files db p
  { db1 with
    presentations := db1.presentations.filter (fun q => q.id != p.id),
    slides := db1.slides.filter (fun s => s.presentation_id != p.id) }

/-! ### Helper lemmas about the embedding -/

theorem getPresentation_id {db : DB} {pid : ℕ} {p : Presentation}
    (h : db.getPresentation pid = some p) : p.id = pid := by
  have := List.find?_some h
  simpa using this

theorem find?_map_update_self (l : List Presentation) (p q : Presentation)
    (h : l.find? (fun r => r.id == p.id) = some q) :
    (l.map (fun r => if r.id == p.id then p else r)).find? (fun r => r.id == p.id) = some p := by
  induction l with
  | nil => simp at h
  | cons a l ih =>
    by_cases ha : a.id = p.id
    · simp [List.find?_cons, ha]
    · have ha' : (a.id == p.id) = false := by simp [ha]
      rw [List.find?_cons_of_neg _ (by simp [ha])] at h
      simp only [List.map_cons, ha', if_false]
      rw [List.find?_cons_of_neg _ (by simp [ha])]
      exact ih h

theorem getPresentation_savePresentation_self (db : DB) (p q : Presentation)
    (h : db.getPresentation p.id = some q) :
    (db.savePresentation p).getPresentation p.id = some p :=
  find?_map_update_self db.presentations p q h

theorem getPresentation_congr {db db' : DB} (h : db.presentations = db'.presentations)
    (pid : ℕ) : db.getPresentation pid = db'.getPresentation pid := by
  simp [DB.getPresentation, h]

theorem slidesOf_congr {db db' : DB} (h : db.slides = db'.slides) (pid : ℕ) :
    db.slidesOf pid = db'.slidesOf pid := by
  simp [DB.slidesOf, h]

theorem create_slides_presentations (pid : ℕ) (ok : ℕ → Bool) :
    ∀ (l : List Image) (k : ℕ) (db : DB),
      (create_slides pid ok k l db).1.presentations = db.presentations
  | [], _, db => rfl
  | _ :: rest, k, db => by
    cases h : ok k <;>
      simp only [create_slides, h, if_true, if_false, Bool.false_eq_true] <;>
      exact create_slides_presentations pid ok rest (k + 1) _

theorem create_slides_slides (pid : ℕ) (ok : ℕ → Bool) :
    ∀ (l : List Image) (k : ℕ) (db : DB),
      (create_slides pid ok k l db).1.slides = db.slides ++ (create_slides pid ok k l db).2
  | [], _, db => by simp [create_slides]
  | _ :: rest, k, db => by
    cases h : ok k
    · simp only [create_slides, h, Bool.false_eq_true, if_false]
      exact create_slides_slides pid ok rest (k + 1) db
    · simp only [create_slides, h, if_true]
      rw [create_slides_slides pid ok rest (k + 1)]
      simp

theorem create_slides_storage (pid : ℕ) (ok : ℕ → Bool) :
    ∀ (l : List Image) (k : ℕ) (db : DB),
      (create_slides pid ok k l db).1.storage =
        db.storage ++ (create_slides pid ok k l db).2.map (fun s => s.image_file)
  | [], _, db => by simp [create_slides]
  | _ :: rest, k, db => by
    cases h : ok k
    · simp only [create_slides, h, Bool.false_eq_true, if_false]
      exact create_slides_storage pid ok rest (k + 1) db
    · simp only [create_slides, h, if_true]
      rw [create_slides_storage pid ok rest (k + 1)]
      simp

theorem create_slides_numbers (pid : ℕ) (ok : ℕ → Bool) :
    ∀ (l : List Image) (k : ℕ) (db : DB),
      (create_slides pid ok k l db).2.map (fun s => s.slide_number) =
        (List.range' k l.length).filter ok
  | [], _, db => by simp [create_slides]
  | _ :: rest, k, db => by
    cases h : ok k
    · simp only [create_slides, h, Bool.false_eq_true, if_false, List.length_cons,
        List.range'_succ, List.filter_cons, h]
      exact create_slides_numbers pid ok rest (k + 1) db
    · simp only [create_slides, h, if_true, List.length_cons, List.range'_succ,
        List.filter_cons, List.map_cons]
      rw [create_slides_numbers pid ok rest (k + 1)]

theorem create_slides_owner (pid : ℕ) (ok : ℕ → Bool) :
    ∀ (l : List Image) (k : ℕ) (db : DB),
      ∀ s ∈ (create_slides pid ok k l db).2, s.presentation_id = pid
  | [], _, db => by simp [create_slides]
  | _ :: rest, k, db => by
    cases h : ok k
    · simp only [create_slides, h, Bool.false_eq_true, if_false]
      exact create_slides_owner pid ok rest (k + 1) db
    · simp only [create_slides, h, if_true]
      intro s hs
      rcases List.mem_cons.mp hs with rfl | hs'
      · rfl
      · exact create_slides_owner pid ok rest (k + 1) _ s hs'

/-- A successful run of the background task, described once and for all:
the returned summary, the final presentation record, the slide numbers
actually persisted (the pages `persistOk` accepts, in order), and the fact
that storage only grows. -/
theorem task_success_master (db : DB) (pid : ℕ) (p : Presentation) (b : ℕ)
    (images : List Image) (persistOk : ℕ → Bool)
    (hp : db.getPresentation pid = some p)
    (hpdf : p.pdf_file = some b) (hmem : b ∈ db.storage) (hne : images ≠ []) :
    (convert_pdf_to_slides db pid (Except.ok images) persistOk).2 =
      Except.ok ⟨pid, ((List.range' 1 images.length).filter persistOk).length, images.length⟩ ∧
    (convert_pdf_to_slides db pid (Except.ok images) persistOk).1.getPresentation pid =
      some { p with
              processing_status := PStatus.completed,
              is_converted := true,
              total_slides := ((List.range' 1 images.length).filter persistOk).length } ∧
    ((convert_pdf_to_slides db pid (Except.ok images) persistOk).1.slidesOf pid).map
        (fun s => s.slide_number) = (List.range' 1 images.length).filter persistOk ∧
    (∃ new, (convert_pdf_to_slides db pid (Except.ok images) persistOk).1.storage =
      db.storage ++ new) := by
  have hid : p.id = pid := getPresentation_id hp
  subst hid
  have hI : images.isEmpty = false := by
    cases images with
    | nil => exact absurd rfl hne
    | cons a l => rfl
  -- the final record written by step 7
  have hcnt :
      (create_slides p.id persistOk 1 images (db.deleteSlideRecords p.id)).2.length =
        ((List.range' 1 images.length).filter persistOk).length := by
    rw [← create_slides_numbers p.id persistOk images 1 (db.deleteSlideRecords p.id),
      List.length_map]
  have hbody : convert_pdf_to_slides db p.id (Except.ok images) persistOk =
      ((create_slides p.id persistOk 1 images (db.deleteSlideRecords p.id)).1.savePresentation
        { p with
           processing_status := PStatus.completed,
           is_converted := true,
           total_slides :=
             (create_slides p.id persistOk 1 images (db.deleteSlideRecords p.id)).2.length },
       Except.ok ⟨p.id,
         (create_slides p.id persistOk 1 images (db.deleteSlideRecords p.id)).2.length,
         images.length⟩) := by
    unfold convert_pdf_to_slides task_body
    rw [hp]
    simp only [hpdf, hmem, if_true, hI, Bool.false_eq_true, if_false]
  rw [hbody]
  have hpres : (create_slides p.id persistOk 1 images (db.deleteSlideRecords p.id)).1.presentations
      = db.presentations := by
    rw [create_slides_presentations]
    rfl
  have hp1 : (create_slides p.id persistOk 1 images (db.deleteSlideRecords p.id)).1.getPresentation
      p.id = some p := by
    rw [getPresentation_congr hpres]
    exact hp
  refine ⟨by rw [hcnt], ?_, ?_, ?_⟩
  · rw [hcnt]
    exact getPresentation_savePresentation_self _ _ p hp1
  · have hslides : ((create_slides p.id persistOk 1 images
        (db.deleteSlideRecords p.id)).1.savePresentation
          { p with
             processing_status := PStatus.completed,
             is_converted := true,
             total_slides :=
               (create_slides p.id persistOk 1 images (db.deleteSlideRecords p.id)).2.length
          }).slidesOf p.id
        = (create_slides p.id persistOk 1 images (db.deleteSlideRecords p.id)).2 := by
      unfold DB.slidesOf DB.savePresentation
      simp only
      rw [create_slides_slides, List.filter_append]
      have h1 : (db.deleteSlideRecords p.id).slides.filter
          (fun s => s.presentation_id == p.id) = [] := by
        rw [List.filter_eq_nil_iff]
        intro s hs
        have := (List.mem_filter.mp hs).2
        simp only [bne_iff_ne, ne_eq] at this
        simp [this]
      have h2 : (create_slides p.id persistOk 1 images (db.deleteSlideRecords p.id)).2.filter
          (fun s => s.presentation_id == p.id)
          = (create_slides p.id persistOk 1 images (db.deleteSlideRecords p.id)).2 := by
        rw [List.filter_eq_self]
        intro s hs
        simp [create_slides_owner p.id persistOk images 1 (db.deleteSlideRecords p.id) s hs]
      rw [h1, h2, List.nil_append]
    rw [hslides]
    exact create_slides_numbers p.id persistOk images 1 (db.deleteSlideRecords p.id)
  · refine ⟨(create_slides p.id persistOk 1 images (db.deleteSlideRecords p.id)).2.map
      (fun s => s.image_file), ?_⟩
    show (create_slides p.id persistOk 1 images (db.deleteSlideRecords p.id)).1.storage = _
    rw [create_slides_storage]
    rfl

/-! ### Claims about the conversion pipeline -/

/-- A sample database: one presentation (id 1) with a stored PDF (blob 0),
no slides yet. -/
def sampleDB : DB :=
  ⟨[⟨1, "Demo", some 0, 0, false, PStatus.pending⟩], [], [0], 1⟩

/-- A sample in-bounds page image. -/
def sampleImage : Image := ⟨800, 600, 0⟩

/-- C1: for every presentation whose PDF rasterizes into N pages with no
per-page persistence failures, after the conversion task completes:
`total_slides = N`, `is_converted = true`, `processing_status = completed`,
and the slide numbers of its slide records are exactly `{1..N}`. -/
theorem convert_success_full (db : DB) (pid : ℕ) (p : Presentation) (b : ℕ)
    (images : List Image) (persistOk : ℕ → Bool)
    (hp : db.getPresentation pid = some p)
    (hpdf : p.pdf_file = some b) (hmem : b ∈ db.storage) (hne : images ≠ [])
    (hok : ∀ n, persistOk n = true) :
    (convert_pdf_to_slides db pid (Except.ok images) persistOk).2 =
      Except.ok ⟨pid, images.length, images.length⟩ ∧
    (∃ p', (convert_pdf_to_slides db pid (Except.ok images) persistOk).1.getPresentation pid
        = some p' ∧
      p'.total_slides = images.length ∧ p'.is_converted = true ∧
      p'.processing_status = PStatus.completed) ∧
    (∀ m : ℕ,
      (∃ s ∈ (convert_pdf_to_slides db pid (Except.ok images) persistOk).1.slidesOf pid,
        s.slide_number = m) ↔ 1 ≤ m ∧ m ≤ images.length) := by
  obtain ⟨hres, hpres, hnum, -⟩ :=
    task_success_master db pid p b images persistOk hp hpdf hmem hne
  have hfilter : (List.range' 1 images.length).filter persistOk
      = List.range' 1 images.length :=
    List.filter_eq_self.mpr (fun a _ => hok a)
  rw [hfilter] at hres hpres hnum
  rw [List.length_range'] at hres hpres
  refine ⟨hres, ⟨_, hpres, rfl, rfl, rfl⟩, ?_⟩
  intro m
  constructor
  · rintro ⟨s, hs, rfl⟩
    have hmem' : s.slide_number ∈
        ((convert_pdf_to_slides db pid (Except.ok images) persistOk).1.slidesOf pid).map
          (fun s => s.slide_number) := List.mem_map_of_mem _ hs
    rw [hnum] at hmem'
    have := List.mem_range'_1.mp hmem'
    omega
  · rintro ⟨h1, h2⟩
    have hm : m ∈ List.range' 1 images.length := List.mem_range'_1.mpr ⟨h1, by omega⟩
    rw [← hnum] at hm
    obtain ⟨s, hs, hsm⟩ := List.mem_map.mp hm
    exact ⟨s, hs, hsm⟩

/-- Witness for C1: the sample presentation converted from two pages, every
page persisting. -/
theorem convert_success_full_witness :
    (convert_pdf_to_slides sampleDB 1 (Except.ok [sampleImage, sampleImage])
      (fun _ => true)).2 = Except.ok ⟨1, 2, 2⟩ ∧
    (∃ p', (convert_pdf_to_slides sampleDB 1 (Except.ok [sampleImage, sampleImage])
        (fun _ => true)).1.getPresentation 1 = some p' ∧
      p'.total_slides = 2 ∧ p'.is_converted = true ∧
      p'.processing_status = PStatus.completed) ∧
    (∀ m : ℕ,
      (∃ s ∈ (convert_pdf_to_slides sampleDB 1 (Except.ok [sampleImage, sampleImage])
        (fun _ => true)).1.slidesOf 1, s.slide_number = m) ↔ 1 ≤ m ∧ m ≤ 2) :=
  convert_success_full sampleDB 1 ⟨1, "Demo", some 0, 0, false, PStatus.pending⟩ 0
    [sampleImage, sampleImage] (fun _ => true) rfl rfl (by decide)
    (by decide) (fun _ => rfl)

/-- C4: a per-page persistence failure skips that page and the task still
completes; the recorded `total_slides` equals the number of slides actually
persisted — the pages accepted by `persistOk` — not the number of source
pages. -/
theorem convert_skips_failed_pages (db : DB) (pid : ℕ) (p : Presentation) (b : ℕ)
    (images : List Image) (persistOk : ℕ → Bool)
    (hp : db.getPresentation pid = some p)
    (hpdf : p.pdf_file = some b) (hmem : b ∈ db.storage) (hne : images ≠ []) :
    (convert_pdf_to_slides db pid (Except.ok images) persistOk).2 =
      Except.ok ⟨pid, ((List.range' 1 images.length).filter persistOk).length,
        images.length⟩ ∧
    (∃ p', (convert_pdf_to_slides db pid (Except.ok images) persistOk).1.getPresentation pid
        = some p' ∧
      p'.processing_status = PStatus.completed ∧
      p'.total_slides =
        ((convert_pdf_to_slides db pid (Except.ok images) persistOk).1.slidesOf pid).length ∧
      p'.total_slides = ((List.range' 1 images.length).filter persistOk).length) := by
  obtain ⟨hres, hpres, hnum, -⟩ :=
    task_success_master db pid p b images persistOk hp hpdf hmem hne
  have hlen : ((convert_pdf_to_slides db pid (Except.ok images) persistOk).1.slidesOf pid).length
      = ((List.range' 1 images.length).filter persistOk).length := by
    rw [← hnum, List.length_map]
  exact ⟨hres, ⟨_, hpres, rfl, hlen.symm, rfl⟩⟩

/-- Witness for C4: three pages, page 2 fails to persist — the run completes
with `total_slides = 2`, not 3. -/
theorem convert_skips_failed_pages_witness :
    (convert_pdf_to_slides sampleDB 1 (Except.ok [sampleImage, sampleImage, sampleImage])
      (fun n => n != 2)).2 = Except.ok ⟨1, 2, 3⟩ ∧
    (∃ p', (convert_pdf_to_slides sampleDB 1
        (Except.ok [sampleImage, sampleImage, sampleImage])
        (fun n => n != 2)).1.getPresentation 1 = some p' ∧
      p'.processing_status = PStatus.completed ∧
      p'.total_slides = ((convert_pdf_to_slides sampleDB 1
        (Except.ok [sampleImage, sampleImage, sampleImage])
        (fun n => n != 2)).1.slidesOf 1).length ∧
      p'.total_slides = 2) :=
  convert_skips_failed_pages sampleDB 1 ⟨1, "Demo", some 0, 0, false, PStatus.pending⟩ 0
    [sampleImage, sampleImage, sampleImage] (fun n => n != 2) rfl rfl (by decide) (by decide)

/-- Counterexample for C5: converting two pages where page 1 fails to persist
marks the presentation converted but leaves slide number set `{2}` — the
slide numbers of a converted presentation are not contiguous starting at 1. -/
theorem slide_numbers_gap_counterexample :
    ((convert_pdf_to_slides sampleDB 1 (Except.ok [sampleImage, sampleImage])
        (fun n => n == 2)).1.getPresentation 1).map (fun p' => p'.is_converted)
      = some true ∧
    ((convert_pdf_to_slides sampleDB 1 (Except.ok [sampleImage, sampleImage])
        (fun n => n == 2)).1.slidesOf 1).map (fun s => s.slide_number) = [2] ∧
    ¬ (1 ∈ ((convert_pdf_to_slides sampleDB 1 (Except.ok [sampleImage, sampleImage])
        (fun n => n == 2)).1.slidesOf 1).map (fun s => s.slide_number)) := by
  decide

/-- C5 (amended): after a conversion attempt completes, no two slide records
of the converted presentation share a `slide_number`; when no per-page
persistence failure occurs the slide numbers are moreover contiguous
starting at 1 (with per-page failures, the skipped page numbers are simply
missing). -/
theorem slide_numbers_unique (db : DB) (pid : ℕ) (p : Presentation) (b : ℕ)
    (images : List Image) (persistOk : ℕ → Bool)
    (hp : db.getPresentation pid = some p)
    (hpdf : p.pdf_file = some b) (hmem : b ∈ db.storage) (hne : images ≠ []) :
    (((convert_pdf_to_slides db pid (Except.ok images) persistOk).1.slidesOf pid).map
      (fun s => s.slide_number)).Nodup ∧
    ((∀ n, persistOk n = true) →
      ((convert_pdf_to_slides db pid (Except.ok images) persistOk).1.slidesOf pid).map
        (fun s => s.slide_number) = List.range' 1 images.length) := by
  obtain ⟨-, -, hnum, -⟩ :=
    task_success_master db pid p b images persistOk hp hpdf hmem hne
  constructor
  · rw [hnum]
    exact List.Nodup.filter persistOk (List.nodup_range' 1 images.length)
  · intro hok
    rw [hnum]
    exact List.filter_eq_self.mpr (fun a _ => hok a)

/-- Witness for C5 (amended): the three-page run with page 2 failing has
distinct slide numbers; the fully-successful two-page run yields `[1, 2]`. -/
theorem slide_numbers_unique_witness :
    (((convert_pdf_to_slides sampleDB 1 (Except.ok [sampleImage, sampleImage, sampleImage])
        (fun n => n != 2)).1.slidesOf 1).map (fun s => s.slide_number)).Nodup ∧
    ((∀ n : ℕ, (fun _ : ℕ => true) n = true) →
      ((convert_pdf_to_slides sampleDB 1 (Except.ok [sampleImage, sampleImage])
        (fun _ => true)).1.slidesOf 1).map (fun s => s.slide_number) = List.range' 1 2) :=
  ⟨(slide_numbers_unique sampleDB 1 ⟨1, "Demo", some 0, 0, false, PStatus.pending⟩ 0
      [sampleImage, sampleImage, sampleImage] (fun n => n != 2) rfl rfl (by decide)
      (by decide)).1,
   (slide_numbers_unique sampleDB 1 ⟨1, "Demo", some 0, 0, false, PStatus.pending⟩ 0
      [sampleImage, sampleImage] (fun _ => true) rfl rfl (by decide) (by decide)).2⟩

/-- Invoking the task twice in a row (the reconversion scenario of C3). -/
def reconvert (db : DB) (pid : ℕ) (raster : Except String (List Image))
    (persistOk : ℕ → Bool) : DB :=
  (convert_pdf_to_slides (convert_pdf_to_slides db pid raster persistOk).1
    pid raster persistOk).1

/-- Counterexample for C3: one presentation converted twice from a one-page
PDF.  The first invocation stores its slide image as blob 1; after the second
invocation blob 1 still exists in storage (the bulk record delete of
reconversion removes rows, not files, and new saves get fresh names). -/
theorem reconvert_keeps_old_blobs_counterexample :
    ((convert_pdf_to_slides sampleDB 1 (Except.ok [sampleImage])
        (fun _ => true)).1.slidesOf 1).map (fun s => s.image_file) = [1] ∧
    1 ∈ (reconvert sampleDB 1 (Except.ok [sampleImage]) (fun _ => true)).storage ∧
    ((reconvert sampleDB 1 (Except.ok [sampleImage]) (fun _ => true)).slidesOf 1).map
      (fun s => s.image_file) = [2] := by
  decide

/-- C3 (amended): invoking the task twice yields the same `total_slides`
value and the same `slide_number` list as invoking it once, and the second
invocation replaces the slide records; but the slide image blobs created by
the first invocation still exist in storage after the second invocation
(storage only grows). -/
theorem reconvert_idempotent_structure (db : DB) (pid : ℕ) (p : Presentation) (b : ℕ)
    (images : List Image) (persistOk : ℕ → Bool)
    (hp : db.getPresentation pid = some p)
    (hpdf : p.pdf_file = some b) (hmem : b ∈ db.storage) (hne : images ≠ []) :
    ((reconvert db pid (Except.ok images) persistOk).slidesOf pid).map
        (fun s => s.slide_number) =
      ((convert_pdf_to_slides db pid (Except.ok images) persistOk).1.slidesOf pid).map
        (fun s => s.slide_number) ∧
    ((reconvert db pid (Except.ok images) persistOk).getPresentation pid).map
        (fun p' => p'.total_slides) =
      ((convert_pdf_to_slides db pid (Except.ok images) persistOk).1.getPresentation pid).map
        (fun p' => p'.total_slides) ∧
    (∀ blob ∈ (convert_pdf_to_slides db pid (Except.ok images) persistOk).1.storage,
      blob ∈ (reconvert db pid (Except.ok images) persistOk).storage) := by
  obtain ⟨-, hpres1, hnum1, hstor1⟩ :=
    task_success_master db pid p b images persistOk hp hpdf hmem hne
  obtain ⟨hstor1new, hstor1eq⟩ := hstor1
  obtain ⟨-, hpres2, hnum2, hstor2⟩ :=
    task_success_master (convert_pdf_to_slides db pid (Except.ok images) persistOk).1 pid
      { p with
         processing_status := PStatus.completed,
         is_converted := true,
         total_slides := ((List.range' 1 images.length).filter persistOk).length } b
      images persistOk hpres1 hpdf
      (by rw [hstor1eq]; exact List.mem_append_left _ hmem) hne
  simp only [reconvert]
  refine ⟨?_, ?_, ?_⟩
  · rw [hnum2, hnum1]
  · rw [hpres2, hpres1]
  · intro blob hb
    obtain ⟨new2, hstor2eq⟩ := hstor2
    rw [hstor2eq]
    exact List.mem_append_left _ hb

/-- Witness for C3 (amended): the sample presentation reconverted from one
page. -/
theorem reconvert_idempotent_structure_witness :
    ((reconvert sampleDB 1 (Except.ok [sampleImage]) (fun _ => true)).slidesOf 1).map
        (fun s => s.slide_number) =
      ((convert_pdf_to_slides sampleDB 1 (Except.ok [sampleImage])
          (fun _ => true)).1.slidesOf 1).map (fun s => s.slide_number) ∧
    ((reconvert sampleDB 1 (Except.ok [sampleImage]) (fun _ => true)).getPresentation 1).map
        (fun p' => p'.total_slides) =
      ((convert_pdf_to_slides sampleDB 1 (Except.ok [sampleImage])
          (fun _ => true)).1.getPresentation 1).map (fun p' => p'.total_slides) ∧
    (∀ blob ∈ (convert_pdf_to_slides sampleDB 1 (Except.ok [sampleImage])
        (fun _ => true)).1.storage,
      blob ∈ (reconvert sampleDB 1 (Except.ok [sampleImage]) (fun _ => true)).storage) :=
  reconvert_idempotent_structure sampleDB 1 ⟨1, "Demo", some 0, 0, false, PStatus.pending⟩ 0
    [sampleImage] (fun _ => true) rfl rfl (by decide) (by decide)

/-- C2: whenever a conversion attempt of the task fails before the final
record update (missing PDF reference, PDF blob missing from storage,
rasterization failure, or an empty rasterization result), the task sets
`processing_status = failed`, returns a conversion error, and leaves
`is_converted` and `total_slides` at their prior values. -/
theorem convert_failure_marks_failed (db : DB) (pid : ℕ) (p : Presentation)
    (raster : Except String (List Image)) (persistOk : ℕ → Bool)
    (hp : db.getPresentation pid = some p)
    (hfail : p.pdf_file = none ∨
      (∃ b, p.pdf_file = some b ∧ b ∉ db.storage) ∨
      (∃ e, raster = Except.error e) ∨ raster = Except.ok []) :
    (∃ e, (convert_pdf_to_slides db pid raster persistOk).2 = Except.error e) ∧
    ∃ p', (convert_pdf_to_slides db pid raster persistOk).1.getPresentation pid = some p' ∧
      p'.processing_status = PStatus.failed ∧
      p'.is_converted = p.is_converted ∧
      p'.total_slides = p.total_slides := by
  have hid : p.id = pid := getPresentation_id hp
  subst hid
  have hbody : ∃ e, task_body db p.id raster persistOk = (db, Except.error e) := by
    rcases hfail with h | ⟨b, hb, hnb⟩ | ⟨e, he⟩ | he
    · exact ⟨"La presentacion no tiene archivo PDF asociado", by simp only [task_body, hp, h]⟩
    · refine ⟨"Archivo PDF no encontrado", ?_⟩
      simp only [task_body, hp, hb]
      simp [hnb]
    · cases hpf : p.pdf_file with
      | none =>
        exact ⟨"La presentacion no tiene archivo PDF asociado",
          by simp only [task_body, hp, hpf]⟩
      | some b =>
        by_cases hbs : b ∈ db.storage
        · refine ⟨"Error al convertir PDF: " ++ e, ?_⟩
          simp only [task_body, hp, hpf, he]
          simp [hbs]
        · refine ⟨"Archivo PDF no encontrado", ?_⟩
          simp only [task_body, hp, hpf]
          simp [hbs]
    · cases hpf : p.pdf_file with
      | none =>
        exact ⟨"La presentacion no tiene archivo PDF asociado",
          by simp only [task_body, hp, hpf]⟩
      | some b =>
        by_cases hbs : b ∈ db.storage
        · refine ⟨"No se pudieron extraer paginas del PDF", ?_⟩
          simp only [task_body, hp, hpf, he]
          simp [hbs]
        · refine ⟨"Archivo PDF no encontrado", ?_⟩
          simp only [task_body, hp, hpf]
          simp [hbs]
  obtain ⟨e, he⟩ := hbody
  have hconv : convert_pdf_to_slides db p.id raster persistOk =
      (mark_failed db p.id, Except.error e) := by
    simp only [convert_pdf_to_slides, he]
  rw [hconv]
  refine ⟨⟨e, rfl⟩, { p with processing_status := PStatus.failed }, ?_, rfl, rfl, rfl⟩
  show (mark_failed db p.id).getPresentation p.id = _
  unfold mark_failed
  rw [hp]
  exact getPresentation_savePresentation_self db _ p hp

/-- Witness for C2: a presentation whose `pdf_file` is unset fails, is marked
`failed`, and keeps `is_converted = false`, `total_slides = 5`. -/
theorem convert_failure_marks_failed_witness :
    (∃ e, (convert_pdf_to_slides
      (DB.mk [⟨2, "NoPdf", none, 5, false, PStatus.pending⟩] [] [] 0) 2
      (Except.ok [sampleImage]) (fun _ => true)).2 = Except.error e) ∧
    ∃ p', (convert_pdf_to_slides
        (DB.mk [⟨2, "NoPdf", none, 5, false, PStatus.pending⟩] [] [] 0) 2
        (Except.ok [sampleImage]) (fun _ => true)).1.getPresentation 2 = some p' ∧
      p'.processing_status = PStatus.failed ∧
      p'.is_converted = false ∧
      p'.total_slides = 5 :=
  convert_failure_marks_failed
    (DB.mk [⟨2, "NoPdf", none, 5, false, PStatus.pending⟩] [] [] 0) 2
    ⟨2, "NoPdf", none, 5, false, PStatus.pending⟩ (Except.ok [sampleImage])
    (fun _ => true) rfl (Or.inl rfl)

/-! ### Slide navigation (`presentation_slide`, views.py 302-336) -/

/-- The JSON payload of a successful slide request (views.py 329-336). -/
structure SlideNavData where
  slide_image_url : ℕ
  slide_number : ℕ
  total_slides : ℕ
  presentation_title : String
  has_previous : Bool
  has_next : Bool
deriving DecidableEq, Repr

/-- The JSON error payload (views.py 312-316 and 322-326). -/
structure SlideNavError where
  error : String
  current_slide : ℕ
  total_slides : ℕ
deriving DecidableEq, Repr

/-- The possible responses of the view: 200 with slide data, 400 with an
error payload, 404 with an error payload (the `IndexError` branch), or the
`get_object_or_404` 404. -/
inductive NavResponse
  | ok (payload : SlideNavData)
  | badRequest (payload : SlideNavError)
  | notFoundSlide (payload : SlideNavError)
  | http404
deriving DecidableEq, Repr

/-- Embeds `presentation_slide(request, pk, slide_number)` (views.py 302-336):
fetch the presentation or 404; order its slides by `slide_number`; reject a
slide number outside `[1, total_slides]` with a 400 payload carrying
`current_slide = 1` and the total; otherwise index the ordered slides at
`slide_number - 1` and return the slide data with
`has_previous = slide_number > 1` and `has_next = slide_number < total`. -/
def presentation_slide (db : DB) (pk : ℕ) (slide_number : ℕ) : NavResponse :=
  match db.getPresentation pk with
  | none => NavResponse.http404
  | some presentation =>
    let slides := List.insertionSort
      (fun a b => a.slide_number ≤ b.slide_number) (db.slidesOf pk)
    let total_slides := slides.length
    if slide_number < 1 ∨ slide_number > total_slides then
      NavResponse.badRequest ⟨"Numero de slide invalido", 1, total_slides⟩
    else
      match slides.get? (slide_number - 1) with
      | none => NavResponse.notFoundSlide ⟨"Slide no encontrado", 1, total_slides⟩
      | some current_slide =>
        NavResponse.ok ⟨current_slide.image_file, slide_number, total_slides,
          presentation.title, decide (slide_number > 1),
          decide (slide_number < total_slides)⟩

/-- C6: for a presentation with T persisted slides and a requested 1-based
slide number n, the navigation view returns the 400 error payload with
`current_slide = 1` and `total_slides = T` when `n < 1` or `n > T`, and
otherwise slide data with `slide_number = n`, `total_slides = T`,
`has_previous = (n > 1)` and `has_next = (n < T)`. -/
theorem presentation_slide_spec (db : DB) (pk n : ℕ) (p : Presentation)
    (hp : db.getPresentation pk = some p) :
    (n < 1 ∨ n > (db.slidesOf pk).length →
      presentation_slide db pk n =
        NavResponse.badRequest ⟨"Numero de slide invalido", 1, (db.slidesOf pk).length⟩) ∧
    (1 ≤ n → n ≤ (db.slidesOf pk).length →
      ∃ url, presentation_slide db pk n =
        NavResponse.ok ⟨url, n, (db.slidesOf pk).length, p.title,
          decide (n > 1), decide (n < (db.slidesOf pk).length)⟩) := by
  have hlen : (List.insertionSort (fun a b => a.slide_number ≤ b.slide_number)
      (db.slidesOf pk)).length = (db.slidesOf pk).length :=
    List.length_insertionSort _ _
  constructor
  · intro hout
    unfold presentation_slide
    rw [hp]
    dsimp only
    rw [if_pos (by omega), hlen]
  · intro h1 h2
    have hidx : n - 1 < (List.insertionSort (fun a b => a.slide_number ≤ b.slide_number)
        (db.slidesOf pk)).length := by
      rw [hlen]; omega
    have hs := List.get?_eq_get hidx
    refine ⟨((List.insertionSort (fun a b => a.slide_number ≤ b.slide_number)
        (db.slidesOf pk)).get ⟨n - 1, hidx⟩).image_file, ?_⟩
    unfold presentation_slide
    rw [hp]
    dsimp only
    rw [if_neg (by omega), hs]
    simp only [hlen]

/-- Witness database for C6: one presentation (id 3) with two slides. -/
def navDB : DB :=
  ⟨[⟨3, "Nav", some 0, 2, true, PStatus.completed⟩],
   [⟨3, 1, 10⟩, ⟨3, 2, 11⟩], [0, 10, 11], 12⟩

/-- Witness for C6: requesting slide 0 of a two-slide presentation yields the
400 payload; requesting slide 1 yields slide data with
`has_previous = false`, `has_next = true`. -/
theorem presentation_slide_spec_witness :
    presentation_slide navDB 3 0 =
      NavResponse.badRequest ⟨"Numero de slide invalido", 1, 2⟩ ∧
    (∃ url, presentation_slide navDB 3 1 =
      NavResponse.ok ⟨url, 1, 2, "Nav", false, true⟩) :=
  ⟨(presentation_slide_spec navDB 3 0 ⟨3, "Nav", some 0, 2, true, PStatus.completed⟩
      rfl).1 (Or.inl (by decide)),
   (presentation_slide_spec navDB 3 1 ⟨3, "Nav", some 0, 2, true, PStatus.completed⟩
      rfl).2 (by decide) (by decide)⟩

/-! ### Claims about deletion (C9) -/

theorem mem_removeBlob {st : List ℕ} {x b : ℕ} :
    x ∈ removeBlob st b ↔ x ∈ st ∧ x ≠ b := by
  simp [removeBlob, List.mem_filter, bne_iff_ne]

theorem mem_foldl_removeBlob (xs : List ℕ) : ∀ (st : List ℕ) (x : ℕ),
    x ∈ xs.foldl removeBlob st ↔ x ∈ st ∧ x ∉ xs
  | st, x => by
    induction xs generalizing st with
    | nil => simp
    | cons y ys ih =>
      simp only [List.foldl_cons]
      rw [ih]
      rw [mem_removeBlob]
      simp only [List.mem_cons]
      tauto

theorem find?_filter_ne_id (l : List Presentation) (pid qid : ℕ) (h : qid ≠ pid) :
    (l.filter (fun q => q.id != pid)).find? (fun q => q.id == qid) =
      l.find? (fun q => q.id == qid) := by
  induction l with
  | nil => rfl
  | cons a l ih =>
    by_cases ha : a.id = pid
    · have h1 : (a.id != pid) = false := by simp [ha]
      simp only [List.filter_cons, h1, Bool.false_eq_true, if_false]
      rw [List.find?_cons_of_neg _ (by simp [ha]; omega)]
      exact ih
    · have h1 : (a.id != pid) = true := by simp [ha]
      simp only [List.filter_cons, h1, if_true]
      by_cases hq : a.id = qid
      · rw [List.find?_cons_of_pos _ (by simp [hq]),
          List.find?_cons_of_pos _ (by simp [hq])]
      · rw [List.find?_cons_of_neg _ (by simp [hq]),
          List.find?_cons_of_neg _ (by simp [hq])]
        exact ih

theorem filter_slides_ne (l : List Slide) (pid qid : ℕ) (h : qid ≠ pid) :
    (l.filter (fun s => s.presentation_id != pid)).filter
        (fun s => s.presentation_id == qid)
      = l.filter (fun s => s.presentation_id == qid) := by
  induction l with
  | nil => rfl
  | cons a l ih =>
    by_cases ha : a.presentation_id = pid
    · have h1 : (a.presentation_id != pid) = false := by simp [ha]
      have h2 : (a.presentation_id == qid) = false := by
        simp only [beq_eq_false_iff_ne, ne_eq, ha]
        omega
      simp [List.filter_cons, h1, h2, ih]
    · have h1 : (a.presentation_id != pid) = true := by simp [ha]
      simp [List.filter_cons, h1, ih]

/-- C9: deleting a presentation removes its PDF blob and every owned slide
image blob from storage (treating an already-missing blob as already
released — the statement quantifies over every starting state, including
ones where the blobs are already absent), removes all its slide records by
cascade, removes the presentation record, and leaves every other
presentation's record and slide rows unchanged. -/
theorem delete_presentation_spec (db : DB) (p : Presentation)
    (hp : db.getPresentation p.id = some p) :
    (∀ b, p.pdf_file = some b → b ∉ (delete_presentation db p).storage) ∧
    (∀ s ∈ db.slidesOf p.id, s.image_file ∉ (delete_presentation db p).storage) ∧
    (delete_presentation db p).slidesOf p.id = [] ∧
    (delete_presentation db p).getPresentation p.id = none ∧
    (∀ qid, qid ≠ p.id →
      (delete_presentation db p).getPresentation qid = db.getPresentation qid ∧
      (delete_presentation db p).slidesOf qid = db.slidesOf qid) := by
  have hstor : (delete_presentation db p).storage =
      ((db.slidesOf p.id).map (fun s => s.image_file)).foldl removeBlob
        (match p.pdf_file with
         | none => db.storage
         | some b => removeBlob db.storage b) := by
    show (delete_files db p).storage = _
    unfold delete_files
    rw [List.foldl_map]
  refine ⟨?_, ?_, ?_, ?_, ?_⟩
  · intro b hb
    rw [hstor, hb]
    intro hmem
    have := (mem_foldl_removeBlob _ _ _).mp hmem
    exact (mem_removeBlob.mp this.1).2 rfl
  · intro s hs
    rw [hstor]
    intro hmem
    exact ((mem_foldl_removeBlob _ _ _).mp hmem).2
      (List.mem_map_of_mem (fun s => s.image_file) hs)
  · show ((delete_files db p).slides.filter (fun s => s.presentation_id != p.id)).filter
        (fun s => s.presentation_id == p.id) = []
    rw [List.filter_eq_nil_iff]
    intro s hs
    have := (List.mem_filter.mp hs).2
    simp only [bne_iff_ne, ne_eq] at this
    simp [this]
  · show ((delete_files db p).presentations.filter (fun q => q.id != p.id)).find?
        (fun q => q.id == p.id) = none
    rw [List.find?_eq_none]
    intro q hq
    have := (List.mem_filter.mp hq).2
    simp only [bne_iff_ne, ne_eq] at this
    simp [this]
  · intro qid hq
    constructor
    · show ((delete_files db p).presentations.filter (fun q => q.id != p.id)).find?
          (fun q => q.id == qid) = _
      rw [find?_filter_ne_id _ _ _ hq]
      rfl
    · show ((delete_files db p).slides.filter (fun s => s.presentation_id != p.id)).filter
          (fun s => s.presentation_id == qid) = _
      rw [filter_slides_ne _ _ _ hq]
      rfl

/-- Witness database for C9: presentation 1 (PDF blob 0, slides with blobs
10, 11) and presentation 2 (PDF blob 1, slide with blob 20). -/
def deleteDB : DB :=
  ⟨[⟨1, "A", some 0, 2, true, PStatus.completed⟩,
    ⟨2, "B", some 1, 1, true, PStatus.completed⟩],
   [⟨1, 1, 10⟩, ⟨1, 2, 11⟩, ⟨2, 1, 20⟩],
   [0, 1, 10, 11, 20], 21⟩

/-- Witness for C9: deleting presentation 1 of `deleteDB`. -/
theorem delete_presentation_spec_witness :
    (∀ b, (some 0 : Option ℕ) = some b →
      b ∉ (delete_presentation deleteDB ⟨1, "A", some 0, 2, true,
        PStatus.completed⟩).storage) ∧
    (∀ s ∈ deleteDB.slidesOf 1, s.image_file ∉
      (delete_presentation deleteDB ⟨1, "A", some 0, 2, true, PStatus.completed⟩).storage) ∧
    (delete_presentation deleteDB ⟨1, "A", some 0, 2, true,
      PStatus.completed⟩).slidesOf 1 = [] ∧
    (delete_presentation deleteDB ⟨1, "A", some 0, 2, true,
      PStatus.completed⟩).getPresentation 1 = none ∧
    (∀ qid, qid ≠ 1 →
      (delete_presentation deleteDB ⟨1, "A", some 0, 2, true,
        PStatus.completed⟩).getPresentation qid = deleteDB.getPresentation qid ∧
      (delete_presentation deleteDB ⟨1, "A", some 0, 2, true,
        PStatus.completed⟩).slidesOf qid = deleteDB.slidesOf qid) :=
  delete_presentation_spec deleteDB ⟨1, "A", some 0, 2, true, PStatus.completed⟩ rfl

end SlideMotion
